import Mathlib

/-!
Shallow embedding of `scripts/query_mls.py`, a one-shot utility that loads
`KEY=VALUE` configuration into the process environment (`load_dotenv`) and
scans a JSON search response for a listing whose address contains the
target substring "53 Bridge Street" (`main`).

Python values occurring in the JSON handling are modelled by `PyVal`;
fallible Python operations (attribute errors on `.get`, type errors of the
`in` operator and of iteration) return `Except String`.
-/

set_option autoImplicit false

namespace QueryMLS

/-- Model of the Python/JSON values the script manipulates: `None`, booleans,
integers, strings, lists, and dicts (as association lists keyed by strings). -/
inductive PyVal where
  | none
  | bool (b : Bool)
  | int (n : Int)
  | str (s : String)
  | list (xs : List PyVal)
  | dict (fs : List (String × PyVal))

/-- Python `d.get(k, default)`: on a dict, the value bound to `k` or the
default; on any non-dict value the attribute access raises (`AttributeError`). -/
def pyGet (v : PyVal) (k : String) (d : PyVal) : Except String PyVal :=
  match v with
  | PyVal.dict fs => Except.ok ((fs.lookup k).getD d)
  | _ => Except.error "AttributeError"

/-- Prefix test on character lists (`needle` is a prefix of `hay`). -/
def isPrefixOfL : List Char → List Char → Bool
  | [], _ => true
  | _ :: _, [] => false
  | a :: as, b :: bs => a == b && isPrefixOfL as bs

/-- Substring occurrence on character lists: `needle` occurs contiguously in
`hay` (the semantics of Python `needle in hay` for strings). -/
def listInfixB (needle : List Char) : List Char → Bool
  | [] => needle.isEmpty
  | c :: rest => isPrefixOfL needle (c :: rest) || listInfixB needle rest

/-- Python `t in s` for strings: `t` occurs as a contiguous substring of `s`
(case-sensitive, exact). -/
def strContainsB (s t : String) : Bool :=
  listInfixB t.data s.data

/-- Python `t in v` where `t` is a string: substring test on a string,
key membership on a dict, element membership on a list, `TypeError` otherwise. -/
def pyInStr (t : String) (v : PyVal) : Except String Bool :=
  match v with
  | PyVal.str s => Except.ok (strContainsB s t)
  | PyVal.dict fs => Except.ok (fs.any (fun p => p.1 == t))
  | PyVal.list xs =>
      Except.ok (xs.any (fun x => match x with
        | PyVal.str s => s == t
        | _ => false))
  | _ => Except.error "TypeError"

mutual

/-- Python `repr` of a modelled value (used by `str`/`print` on containers). -/
def pyRepr : PyVal → String
  | PyVal.none => "None"
  | PyVal.bool b => if b then "True" else "False"
  | PyVal.int n => toString n
  | PyVal.str s => "\x27" ++ s ++ "\x27"
  | PyVal.list xs => "[" ++ pyReprList xs ++ "]"
  | PyVal.dict fs => "\x7b" ++ pyReprDict fs ++ "\x7d"

/-- Comma-separated `repr`s of list elements. -/
def pyReprList : List PyVal → String
  | [] => ""
  | [x] => pyRepr x
  | x :: y :: rest => pyRepr x ++ ", " ++ pyReprList (y :: rest)

/-- Comma-separated `repr`s of dict entries. -/
def pyReprDict : List (String × PyVal) → String
  | [] => ""
  | [(k, v)] => "\x27" ++ k ++ "\x27: " ++ pyRepr v
  | (k, v) :: e :: rest => "\x27" ++ k ++ "\x27: " ++ pyRepr v ++ ", " ++ pyReprDict (e :: rest)

end

/-- Python `str(v)`, which is what `print` writes for each argument. -/
def pyStr : PyVal → String
  | PyVal.str s => s
  | v => pyRepr v

/-! ## Environment loader (`load_dotenv`) -/

/-- The process environment, modelled as an association list of variables
(first binding wins on lookup, mirroring a dict that is never rebound). -/
abbrev Env : Type := List (String × String)

/-- The characters stripped by Python `str.strip()` (ASCII whitespace). -/
def pyIsSpace (c : Char) : Bool :=
  c == ' ' || c == '\t' || c == '\n' || c == '\r' || c == '\x0b' || c == '\x0c'

/-- Python `line.strip()` on a character list. -/
def stripL (l : List Char) : List Char :=
  (((l.dropWhile pyIsSpace).reverse).dropWhile pyIsSpace).reverse

/-- Python `line.split("=", 1)` when `=` occurs in the line: the part
strictly before the first `=` and everything after it. -/
def splitEq : List Char → List Char × List Char
  | [] => ([], [])
  | c :: rest =>
    if c = '=' then ([], rest)
    else
      let p := splitEq rest
      (c :: p.1, p.2)

/-- Python `os.environ.setdefault(k, v)`: bind `k` to `v` only when `k` is
not already present; an existing binding is left untouched. -/
def setdefault (env : Env) (k v : String) : Env :=
  match List.lookup k env with
  | some _ => env
  | Option.none => env ++ [(k, v)]

/-- One iteration of the loop body of `load_dotenv`: strip the line, skip
blank, comment and `=`-free lines, otherwise split at the first `=` and
`setdefault` the pair into the environment. -/
def processLine (env : Env) (rawLine : String) : Env :=
  match stripL rawLine.data with
  | [] => env
  | c :: rest =>
    if c = '#' then env
    else if !((c :: rest).contains '=') then env
    else
      setdefault env (String.mk (splitEq (c :: rest)).1)
        (String.mk (splitEq (c :: rest)).2)

/-- The loop of `load_dotenv` over the lines of an existing file. -/
def loadLines (env : Env) (lines : List String) : Env :=
  lines.foldl processLine env

/-- Model of `load_dotenv(path)`: the file is either absent (`Option.none`,
mirroring the `os.path.exists` guard: return with no effect) or a list of
text lines. -/
def load_dotenv (env : Env) (file : Option (List String)) : Env :=
  match file with
  | Option.none => env
  | some lines => loadLines env lines

/-- The key a well-formed configuration line binds: the stripped line's part
before the first `=`. -/
def lineKey (L : String) : String :=
  String.mk (splitEq (stripL L.data)).1

/-- The value a well-formed configuration line binds: everything in the
stripped line after the first `=`. -/
def lineVal (L : String) : String :=
  String.mk (splitEq (stripL L.data)).2

/-! ## Listing query runner (`main`) -/

/-- The target substring of `main`'s address match. -/
def TARGET : String := "53 Bridge Street"

/-- Scanning one record of the `data` array (loop body, lines 50-61 of the
source): extract the nested address string (defaults cascade to the empty
string), test the target substring, and on a match produce the six printed
lines; `Option.none` means the record did not match. -/
def scanItem (item : PyVal) : Except String (Option (List String)) :=
  match pyGet item "listing" (PyVal.dict []) with
  | Except.error e => Except.error e
  | Except.ok listing0 =>
  match pyGet listing0 "address" (PyVal.dict []) with
  | Except.error e => Except.error e
  | Except.ok address =>
  match pyGet address "unparsedAddress" (PyVal.str "") with
  | Except.error e => Except.error e
  | Except.ok unparsed =>
  match pyInStr TARGET unparsed with
  | Except.error e => Except.error e
  | Except.ok isMatch =>
  if isMatch then
    match pyGet item "listing" (PyVal.dict []) with
    | Except.error e => Except.error e
    | Except.ok listing =>
    match pyGet listing "property" (PyVal.dict []) with
    | Except.error e => Except.error e
    | Except.ok prop =>
    match pyGet item "listingId" PyVal.none with
    | Except.error e => Except.error e
    | Except.ok lid =>
    match pyGet listing "listPriceLow" PyVal.none with
    | Except.error e => Except.error e
    | Except.ok price =>
    match pyGet prop "bedroomsTotal" PyVal.none with
    | Except.error e => Except.error e
    | Except.ok beds =>
    match pyGet prop "bathroomsTotal" PyVal.none with
    | Except.error e => Except.error e
    | Except.ok baths =>
    match pyGet prop "livingArea" PyVal.none with
    | Except.error e => Except.error e
    | Except.ok sqft =>
    match pyGet address "unparsedAddress" PyVal.none with
    | Except.error e => Except.error e
    | Except.ok fullAddr =>
      Except.ok (some
        [ "listingId " ++ pyStr lid
        , "price " ++ pyStr price
        , "beds " ++ pyStr beds
        , "baths " ++ pyStr baths
        , "sqft " ++ pyStr sqft
        , "fullAddress " ++ pyStr fullAddr ])
  else
    Except.ok Option.none

/-- The scan loop over the `data` array: first matching record's lines, with
the literal line "not found" when the scan completes without a match. -/
def scanData : List PyVal → Except String (List String)
  | [] => Except.ok ["not found"]
  | item :: rest =>
    match scanItem item with
    | Except.error e => Except.error e
    | Except.ok (some lines) => Except.ok lines
    | Except.ok Option.none => scanData rest

/-- Python iteration `for item in v`: elements of a list, characters of a
string, keys of a dict; any other value is not iterable (`TypeError`). -/
def pyIter (v : PyVal) : Except String (List PyVal) :=
  match v with
  | PyVal.list xs => Except.ok xs
  | PyVal.str s => Except.ok (s.data.map (fun c => PyVal.str (String.mk [c])))
  | PyVal.dict fs => Except.ok (fs.map (fun p => PyVal.str p.1))
  | _ => Except.error "TypeError"

/-- The success path of `main` after `json.load`: the lines printed to
standard output when scanning `payload.get("data", [])`. -/
def mainOnOk (payload : PyVal) : Except String (List String) :=
  match pyGet payload "data" (PyVal.list []) with
  | Except.error e => Except.error e
  | Except.ok dataVal =>
    match pyIter dataVal with
    | Except.error e => Except.error e
    | Except.ok items => scanData items

/-! ## HTTP error path -/

/-- Is `b` a UTF-8 continuation byte (`0x80..0xBF`)? -/
def isCont (b : Nat) : Bool := 0x80 ≤ b && b ≤ 0xBF

/-- Python `bytes.decode("utf-8", errors="ignore")`: decode a byte sequence,
silently dropping the maximal invalid prefix at each failure instead of
raising, as the `ignore` error handler does. The `fuel` argument only bounds
the recursion depth; each step consumes at least one byte, so a fuel equal
to the byte count (see `decodeUtf8Ignore` below) never runs out. -/
def decodeUtf8IgnoreF : Nat → List Nat → List Char
  | _, [] => []
  | 0, _ :: _ => []
  | fuel + 1, b :: rest =>
    if b < 0x80 then Char.ofNat b :: decodeUtf8IgnoreF fuel rest
    else if b < 0xC2 then decodeUtf8IgnoreF fuel rest
    else if b < 0xE0 then
      match rest with
      | [] => []
      | b2 :: rest2 =>
        if isCont b2 then
          Char.ofNat ((b - 0xC0) * 0x40 + (b2 - 0x80)) :: decodeUtf8IgnoreF fuel rest2
        else decodeUtf8IgnoreF fuel (b2 :: rest2)
    else if b < 0xF0 then
      match rest with
      | [] => []
      | b2 :: rest2 =>
        if (if b = 0xE0 then 0xA0 ≤ b2 && b2 ≤ 0xBF
            else if b = 0xED then 0x80 ≤ b2 && b2 ≤ 0x9F
            else isCont b2) then
          match rest2 with
          | [] => []
          | b3 :: rest3 =>
            if isCont b3 then
              Char.ofNat ((b - 0xE0) * 0x1000 + (b2 - 0x80) * 0x40 + (b3 - 0x80))
                :: decodeUtf8IgnoreF fuel rest3
            else decodeUtf8IgnoreF fuel (b3 :: rest3)
        else decodeUtf8IgnoreF fuel (b2 :: rest2)
    else if b < 0xF5 then
      match rest with
      | [] => []
      | b2 :: rest2 =>
        if (if b = 0xF0 then 0x90 ≤ b2 && b2 ≤ 0xBF
            else if b = 0xF4 then 0x80 ≤ b2 && b2 ≤ 0x8F
            else isCont b2) then
          match rest2 with
          | [] => []
          | b3 :: rest3 =>
            if isCont b3 then
              match rest3 with
              | [] => []
              | b4 :: rest4 =>
                if isCont b4 then
                  Char.ofNat ((b - 0xF0) * 0x40000 + (b2 - 0x80) * 0x1000
                      + (b3 - 0x80) * 0x40 + (b4 - 0x80))
                    :: decodeUtf8IgnoreF fuel rest4
                else decodeUtf8IgnoreF fuel (b4 :: rest4)
            else decodeUtf8IgnoreF fuel (b3 :: rest3)
        else decodeUtf8IgnoreF fuel (b2 :: rest2)
    else decodeUtf8IgnoreF fuel rest

/-- Decoding with the fuel fixed to the byte count: every step of the
decoder consumes at least one byte, so this fuel always suffices and the
decode is total -- it drops invalid bytes, never failing. -/
def decodeUtf8Ignore (l : List Nat) : List Char :=
  decodeUtf8IgnoreF l.length l

/-- The outcome of `urllib.request.urlopen`: a parsed JSON payload on a 2xx
status, or an `HTTPError` carrying status code, reason phrase and raw body
bytes (transport-level failures propagate out of `main` and are not output). -/
inductive HttpResult where
  | success (payload : PyVal)
  | httpError (code : Nat) (reason : String) (bodyBytes : List Nat)

/-- The first line printed on the HTTP error path:
`print("HTTP error", err.code, err.reason)`. -/
def httpErrorLine (code : Nat) (reason : String) : String :=
  "HTTP error " ++ toString code ++ " " ++ reason

/-- The lines `main` prints to standard output, as a function of the HTTP
outcome: the error report on an `HTTPError`, otherwise the scan of the
parsed payload. -/
def mainOutput : HttpResult → Except String (List String)
  | HttpResult.success payload => mainOnOk payload
  | HttpResult.httpError code reason bodyBytes =>
      Except.ok [httpErrorLine code reason,
                 String.mk (decodeUtf8Ignore bodyBytes)]

/-! ## Derived predicates and concrete inputs used by the theorems -/

/-- A configuration line that `load_dotenv` actually processes: after
stripping it is non-empty, not a comment, and contains an `=`. -/
def isWellFormedLine (L : String) : Bool :=
  match stripL L.data with
  | [] => false
  | c :: rest => !(c == '#') && (c :: rest).contains '='

/-- The address value the loop body reads for a record:
`item.get("listing", {}).get("address", {}).get("unparsedAddress", "")`. -/
def unparsedOf (item : PyVal) : Except String PyVal :=
  match pyGet item "listing" (PyVal.dict []) with
  | Except.error e => Except.error e
  | Except.ok listing0 =>
  match pyGet listing0 "address" (PyVal.dict []) with
  | Except.error e => Except.error e
  | Except.ok address => pyGet address "unparsedAddress" (PyVal.str "")

/-- The record's nested fields are dicts/strings wherever they are present;
any of them may be absent. (Presence with a wrong type is a Python
`AttributeError`/`TypeError` and outside the claim about absent fields.) -/
def wellShapedItem : PyVal → Bool
  | PyVal.dict fs =>
    (match List.lookup "listing" fs with
     | Option.none => true
     | some (PyVal.dict gs) =>
        (match List.lookup "address" gs with
         | Option.none => true
         | some (PyVal.dict hs) =>
            (match List.lookup "unparsedAddress" hs with
             | Option.none => true
             | some (PyVal.str _) => true
             | some _ => false)
         | some _ => false)
        &&
        (match List.lookup "property" gs with
         | Option.none => true
         | some (PyVal.dict _) => true
         | some _ => false)
     | some _ => false)
  | _ => false

/-- Some level of the `listing.address.unparsedAddress` chain is absent
(so the loop body's cascading defaults produce the empty string). -/
def addressAbsent : PyVal → Bool
  | PyVal.dict fs =>
    (match List.lookup "listing" fs with
     | Option.none => true
     | some (PyVal.dict gs) =>
        (match List.lookup "address" gs with
         | Option.none => true
         | some (PyVal.dict hs) => (List.lookup "unparsedAddress" hs).isNone
         | some _ => false)
     | some _ => false)
  | _ => false

/-- Does a fallible computation succeed (i.e. raise no error)? -/
def exceptIsOk {α : Type} : Except String α → Bool
  | Except.ok _ => true
  | Except.error _ => false

/-- ASCII lower-casing, used only to state that a counterexample address
differs from the target in letter case alone. -/
def asciiLower (c : Char) : Char :=
  if 'A' ≤ c && c ≤ 'Z' then Char.ofNat (c.toNat + 32) else c

/-- The end-to-end example payload of the specification. -/
def c4Payload : PyVal :=
  PyVal.dict [("data", PyVal.list [PyVal.dict
    [ ("listingId", PyVal.int 42)
    , ("listing", PyVal.dict
        [ ("listPriceLow", PyVal.int 250000)
        , ("address", PyVal.dict
            [("unparsedAddress", PyVal.str "53 Bridge Street, Rome, NY 13440")])
        , ("property", PyVal.dict
            [ ("bedroomsTotal", PyVal.int 3)
            , ("bathroomsTotal", PyVal.int 2)
            , ("livingArea", PyVal.int 1500) ]) ]) ]])]

/-- A matching record with a given `listingId`. -/
def matchingRecord (n : Int) : PyVal :=
  PyVal.dict
    [ ("listingId", PyVal.int n)
    , ("listing", PyVal.dict
        [ ("listPriceLow", PyVal.int 100)
        , ("address", PyVal.dict
            [("unparsedAddress", PyVal.str "53 Bridge Street, Rome, NY 13440")])
        , ("property", PyVal.dict
            [ ("bedroomsTotal", PyVal.int 1)
            , ("bathroomsTotal", PyVal.int 1)
            , ("livingArea", PyVal.int 100) ]) ]) ]

/-- A payload whose `data` array contains two matching records. -/
def twoMatchPayload : PyVal :=
  PyVal.dict [("data", PyVal.list [matchingRecord 1, matchingRecord 2])]

/-- The lines the program prints for `matchingRecord 1`. -/
def firstMatchLines : List String :=
  [ "listingId 1", "price 100", "beds 1", "baths 1", "sqft 100"
  , "fullAddress 53 Bridge Street, Rome, NY 13440" ]

/-- A record whose address differs from the target substring only in letter
case. -/
def lowerCaseRecord : PyVal :=
  PyVal.dict [("listing", PyVal.dict [("address", PyVal.dict
    [("unparsedAddress", PyVal.str "53 bridge street, Rome, NY 13440")])])]

/-- A matched record with an empty `property` dict (all numeric fields
absent). -/
def noNumericsRecord : PyVal :=
  PyVal.dict [("listing", PyVal.dict
    [ ("address", PyVal.dict [("unparsedAddress", PyVal.str "53 Bridge Street")])
    , ("property", PyVal.dict []) ])]

/-! ## Environment loader lemmas -/

lemma lookup_append_of_some {l l2 : Env} {k w : String}
    (h : List.lookup k l = some w) : List.lookup k (l ++ l2) = some w := by
  induction l with
  | nil => simp [List.lookup] at h
  | cons p t ih =>
    obtain ⟨a, b⟩ := p
    simp only [List.cons_append, List.lookup] at h ⊢
    cases hab : (k == a) with
    | true => simp [hab] at h ⊢; exact h
    | false => simp only [hab] at h ⊢; exact ih h

lemma lookup_append_of_none {l l2 : Env} {k : String}
    (h : List.lookup k l = Option.none) :
    List.lookup k (l ++ l2) = List.lookup k l2 := by
  induction l with
  | nil => simp
  | cons p t ih =>
    obtain ⟨a, b⟩ := p
    simp only [List.cons_append, List.lookup] at h ⊢
    cases hab : (k == a) with
    | true => simp [hab] at h
    | false => simp only [hab] at h ⊢; exact ih h

lemma lookup_setdefault_self (env : Env) (k v : String) :
    List.lookup k (setdefault env k v) = some ((List.lookup k env).getD v) := by
  unfold setdefault
  cases h : List.lookup k env with
  | some w => simp [h]
  | none =>
    simp only [h, Option.getD]
    rw [lookup_append_of_none h]
    simp [List.lookup]

lemma lookup_setdefault_of_some {env : Env} {k w : String} (k' v' : String)
    (h : List.lookup k env = some w) :
    List.lookup k (setdefault env k' v') = some w := by
  unfold setdefault
  cases h2 : List.lookup k' env with
  | some _ => exact h
  | none => exact lookup_append_of_some h

lemma processLine_nil (env : Env) (L : String) (hs : stripL L.data = []) :
    processLine env L = env := by
  unfold processLine; rw [hs]

lemma processLine_cons (env : Env) (L : String) (c : Char) (t : List Char)
    (hs : stripL L.data = c :: t) :
    processLine env L =
      (if c = '#' then env
       else if (!(c :: t).contains '=') = true then env
       else setdefault env (String.mk (splitEq (c :: t)).1)
              (String.mk (splitEq (c :: t)).2)) := by
  unfold processLine; rw [hs]

lemma lookup_processLine_of_some {env : Env} {k w : String} (L : String)
    (h : List.lookup k env = some w) :
    List.lookup k (processLine env L) = some w := by
  cases hs : stripL L.data with
  | nil => rw [processLine_nil env L hs]; exact h
  | cons c t =>
    rw [processLine_cons env L c t hs]
    split
    · exact h
    · split
      · exact h
      · exact lookup_setdefault_of_some _ _ h

lemma lookup_loadLines_of_some {env : Env} {k w : String} (ls : List String)
    (h : List.lookup k env = some w) :
    List.lookup k (loadLines env ls) = some w := by
  induction ls generalizing env with
  | nil => exact h
  | cons L t ih =>
    simp only [loadLines, List.foldl_cons]
    exact ih (lookup_processLine_of_some L h)

lemma loadLines_append (env : Env) (l1 l2 : List String) :
    loadLines env (l1 ++ l2) = loadLines (loadLines env l1) l2 := by
  simp [loadLines, List.foldl_append]

lemma processLine_of_wellFormed (env : Env) (L : String)
    (hwf : isWellFormedLine L = true) :
    processLine env L = setdefault env (lineKey L) (lineVal L) := by
  unfold isWellFormedLine at hwf
  cases hs : stripL L.data with
  | nil => rw [hs] at hwf; simp at hwf
  | cons c t =>
    rw [hs] at hwf
    simp only [Bool.and_eq_true, Bool.not_eq_eq_eq_not, Bool.not_true] at hwf
    obtain ⟨hc, hcont⟩ := hwf
    have hc' : ¬(c = '#') := by
      intro h; rw [h] at hc; simp at hc
    have hcond : ¬((!(c :: t).contains '=') = true) := by
      rw [hcont]; simp
    rw [processLine_cons env L c t hs, if_neg hc', if_neg hcond]
    unfold lineKey lineVal
    rw [hs]

/-! ## Theorems for the claims about `load_dotenv` -/

/-- C2: for every well-formed `KEY=VALUE` line of the configuration file,
the environment after `load_dotenv` maps `KEY` to the prior value when `KEY`
was already present before that line was processed, and to `VALUE`
otherwise (first-writer-wins: file values never override existing ones). -/
theorem dotenv_first_writer_wins (env : Env) (pre rest : List String)
    (L : String) (hwf : isWellFormedLine L = true) :
    List.lookup (lineKey L) (loadLines env (pre ++ L :: rest)) =
      some ((List.lookup (lineKey L) (loadLines env pre)).getD (lineVal L)) := by
  have hsplit : pre ++ L :: rest = (pre ++ [L]) ++ rest := by simp
  rw [hsplit, loadLines_append, loadLines_append]
  have h1 : loadLines (loadLines env pre) [L] =
      processLine (loadLines env pre) L := rfl
  rw [h1, processLine_of_wellFormed _ _ hwf]
  exact lookup_loadLines_of_some rest
    (lookup_setdefault_self (loadLines env pre) (lineKey L) (lineVal L))

/-- Witness for C2: with `A` already bound by an earlier file line, the line
`A=9` does not override it, and the binding survives to the end. -/
theorem dotenv_first_writer_wins_witness :
    isWellFormedLine "A=9" = true ∧
    List.lookup (lineKey "A=9")
        (loadLines [("HOME", "/root")] (["A=1"] ++ "A=9" :: ["B=2"])) =
      some ((List.lookup (lineKey "A=9")
        (loadLines [("HOME", "/root")] ["A=1"])).getD (lineVal "A=9")) :=
  ⟨by decide, dotenv_first_writer_wins [("HOME", "/root")] ["A=1"] ["B=2"] "A=9" (by decide)⟩

lemma splitEq_append (k v : List Char) (hk : k.contains '=' = false) :
    splitEq (k ++ '=' :: v) = (k, v) := by
  induction k with
  | nil => simp [splitEq]
  | cons c t ih =>
    simp only [List.contains_cons, Bool.or_eq_false_iff] at hk
    obtain ⟨hc, ht⟩ := hk
    have hc' : ¬(c = '=') := by
      intro h; rw [h] at hc; simp at hc
    simp [splitEq, hc', ih ht]

/-- C6: a processed line splits at the first `=` only: when the stripped
line is `k ++ "=" ++ v` with no `=` in `k`, the key is `k` and the value is
`v` — so values may themselves contain `=` characters, preserved intact. -/
theorem split_at_first_eq (L : String) (k v : List Char)
    (hk : k.contains '=' = false) (hs : stripL L.data = k ++ '=' :: v) :
    lineKey L = String.mk k ∧ lineVal L = String.mk v := by
  unfold lineKey lineVal
  rw [hs, splitEq_append k v hk]
  exact ⟨rfl, rfl⟩

/-- Witness for C6: the line `A=B=C` yields key `A` and value `B=C`,
the `=` characters of the value intact. -/
theorem split_at_first_eq_witness :
    (['A'].contains '=' = false) ∧
    stripL ("A=B=C").data = ['A'] ++ '=' :: ['B', '=', 'C'] ∧
    lineKey "A=B=C" = String.mk ['A'] ∧
    lineVal "A=B=C" = String.mk ['B', '=', 'C'] :=
  ⟨by decide, by decide,
    split_at_first_eq "A=B=C" ['A'] ['B', '=', 'C'] (by decide) (by decide)⟩

/-- C8: a line that strips to the empty string, starts with `#`, or
contains no `=` leaves the environment completely unchanged. -/
theorem skipped_lines_no_effect (env : Env) (L : String)
    (h : stripL L.data = [] ∨ (∃ t, stripL L.data = '#' :: t) ∨
         (stripL L.data).contains '=' = false) :
    processLine env L = env := by
  cases hs : stripL L.data with
  | nil => exact processLine_nil env L hs
  | cons c t =>
    rw [hs] at h
    rw [processLine_cons env L c t hs]
    rcases h with h | ⟨t', ht'⟩ | h
    · exact absurd h (by simp)
    · have hc : c = '#' := (List.cons.injEq _ _ _ _ ▸ ht').1
      rw [if_pos hc]
    · by_cases hc : c = '#'
      · rw [if_pos hc]
      · have hcond : (!((c :: t).contains '=')) = true := by rw [h]; rfl
        rw [if_neg hc, if_pos hcond]

/-- Witness for C8: a comment line leaves a non-trivial environment
untouched. -/
theorem skipped_lines_no_effect_witness :
    (stripL ("  # comment").data = [] ∨
     (∃ t, stripL ("  # comment").data = '#' :: t) ∨
     (stripL ("  # comment").data).contains '=' = false) ∧
    processLine [("A", "1")] "  # comment" = [("A", "1")] :=
  ⟨Or.inr (Or.inl ⟨(" comment").data, by decide⟩),
   skipped_lines_no_effect [("A", "1")] "  # comment"
     (Or.inr (Or.inl ⟨(" comment").data, by decide⟩))⟩

/-- C9: when the configuration file does not exist, `load_dotenv` returns
immediately and the environment is identical before and after the call. -/
theorem file_absent_no_effect (env : Env) :
    load_dotenv env Option.none = env := rfl

/-! ## Scan lemmas -/

lemma pyGet_dict (fs : List (String × PyVal)) (k : String) (d : PyVal) :
    pyGet (PyVal.dict fs) k d = Except.ok ((List.lookup k fs).getD d) := rfl

lemma scanData_cons_some {item : PyVal} {lines : List String}
    (h : scanItem item = Except.ok (some lines)) (rest : List PyVal) :
    scanData (item :: rest) = Except.ok lines := by
  simp only [scanData]; rw [h]

lemma scanData_cons_none {item : PyVal}
    (h : scanItem item = Except.ok Option.none) (rest : List PyVal) :
    scanData (item :: rest) = scanData rest := by
  simp only [scanData]; rw [h]

lemma scanData_skip {pre : List PyVal}
    (hpre : ∀ j ∈ pre, scanItem j = Except.ok Option.none)
    (rest : List PyVal) :
    scanData (pre ++ rest) = scanData rest := by
  induction pre with
  | nil => rfl
  | cons j t ih =>
    rw [List.cons_append,
        scanData_cons_none (hpre j (List.mem_cons_self j t)) (t ++ rest)]
    exact ih (fun x hx => hpre x (List.mem_cons_of_mem j hx))

lemma mainOnOk_eq_scanData {payload : PyVal} {items : List PyVal}
    (hdata : pyGet payload "data" (PyVal.list []) =
      Except.ok (PyVal.list items)) :
    mainOnOk payload = scanData items := by
  unfold mainOnOk; rw [hdata]; rfl

lemma scanItem_some_shape {item : PyVal} {lines : List String}
    (h : scanItem item = Except.ok (some lines)) :
    ∃ a b c d e f, lines =
      ["listingId " ++ a, "price " ++ b, "beds " ++ c, "baths " ++ d,
       "sqft " ++ e, "fullAddress " ++ f] := by
  unfold scanItem at h
  repeat' split at h
  all_goals simp at h
  all_goals first
    | exact ⟨_, _, _, _, _, _, h⟩
    | exact ⟨_, _, _, _, _, _, h.symm⟩

/-! ## Theorems for the claims about `main` -/

/-- C4 (end-to-end example): on the specification's example payload, the
program's output is exactly the six labeled lines, in order. -/
theorem end_to_end_example :
    mainOnOk c4Payload = Except.ok
      [ "listingId 42", "price 250000", "beds 3", "baths 2", "sqft 1500"
      , "fullAddress 53 Bridge Street, Rome, NY 13440" ] := rfl

/-- C10: the address match is case-sensitive exact-substring containment:
an address that contains the target only in a different letter case is a
non-match, and a response holding only such records prints `not found`.
(The last conjunct checks the address differs from a matching one in
letter case alone.) -/
theorem match_is_case_sensitive :
    strContainsB "53 bridge street, Rome, NY 13440" TARGET = false ∧
    scanItem lowerCaseRecord = Except.ok Option.none ∧
    mainOnOk (PyVal.dict [("data", PyVal.list [lowerCaseRecord])]) =
      Except.ok ["not found"] ∧
    listInfixB (TARGET.data.map asciiLower)
      (("53 bridge street, Rome, NY 13440").data.map asciiLower) = true :=
  ⟨by decide, rfl, rfl, by decide⟩

/-- Counterexample to C1 as stated: on a payload whose `data` array contains
(two) records matching the target substring, the program prints six labeled
lines, not seven. -/
theorem match_prints_six_not_seven :
    mainOnOk twoMatchPayload = Except.ok firstMatchLines ∧
    (mainOnOk twoMatchPayload).map List.length = Except.ok 6 ∧
    (mainOnOk twoMatchPayload).map List.length ≠ Except.ok 7 := by
  refine ⟨rfl, rfl, ?_⟩
  intro h
  rw [show (mainOnOk twoMatchPayload).map List.length = Except.ok 6 from rfl] at h
  simp at h

/-- C1 (amended: six lines, not seven): when the `data` array holds a first
matching record, `main` prints that record's six labeled `<label> <value>`
lines and returns immediately, never examining the remaining records — so
with two matching records present, only the first is reported. -/
theorem first_match_reported (payload : PyVal) (pre post : List PyVal)
    (item : PyVal) (lines : List String)
    (hdata : pyGet payload "data" (PyVal.list []) =
      Except.ok (PyVal.list (pre ++ item :: post)))
    (hpre : ∀ j ∈ pre, scanItem j = Except.ok Option.none)
    (hitem : scanItem item = Except.ok (some lines)) :
    mainOnOk payload = Except.ok lines ∧ lines.length = 6 ∧
      ∃ a b c d e f, lines =
        ["listingId " ++ a, "price " ++ b, "beds " ++ c, "baths " ++ d,
         "sqft " ++ e, "fullAddress " ++ f] := by
  obtain ⟨a, b, c, d, e, f, hshape⟩ := scanItem_some_shape hitem
  refine ⟨?_, ?_, a, b, c, d, e, f, hshape⟩
  · rw [mainOnOk_eq_scanData hdata, scanData_skip hpre,
        scanData_cons_some hitem]
  · rw [hshape]; rfl

/-- Witness for C1: a payload with two matching records; only the first
record's six lines are output. -/
theorem first_match_reported_witness :
    pyGet twoMatchPayload "data" (PyVal.list []) =
      Except.ok (PyVal.list ([] ++ matchingRecord 1 :: [matchingRecord 2])) ∧
    (∀ j ∈ ([] : List PyVal), scanItem j = Except.ok Option.none) ∧
    scanItem (matchingRecord 1) = Except.ok (some firstMatchLines) ∧
    (mainOnOk twoMatchPayload = Except.ok firstMatchLines ∧
      firstMatchLines.length = 6 ∧
      ∃ a b c d e f, firstMatchLines =
        ["listingId " ++ a, "price " ++ b, "beds " ++ c, "baths " ++ d,
         "sqft " ++ e, "fullAddress " ++ f]) :=
  ⟨rfl, by simp, rfl,
    first_match_reported twoMatchPayload [] [matchingRecord 2]
      (matchingRecord 1) firstMatchLines rfl (by simp) rfl⟩

/-- C5: when no record of the `data` array matches, the success path prints
exactly the literal line `not found` and nothing else. -/
theorem no_match_not_found (payload : PyVal) (items : List PyVal)
    (hdata : pyGet payload "data" (PyVal.list []) =
      Except.ok (PyVal.list items))
    (hnone : ∀ j ∈ items, scanItem j = Except.ok Option.none) :
    mainOnOk payload = Except.ok ["not found"] := by
  rw [mainOnOk_eq_scanData hdata,
      show items = items ++ [] by simp, scanData_skip hnone]
  rfl

/-- Witness for C5: a payload with one non-matching record prints exactly
`not found`. -/
theorem no_match_not_found_witness :
    pyGet (PyVal.dict [("data", PyVal.list [lowerCaseRecord])]) "data"
        (PyVal.list []) = Except.ok (PyVal.list [lowerCaseRecord]) ∧
    (∀ j ∈ [lowerCaseRecord], scanItem j = Except.ok Option.none) ∧
    mainOnOk (PyVal.dict [("data", PyVal.list [lowerCaseRecord])]) =
      Except.ok ["not found"] :=
  ⟨rfl, by intro j hj; rw [List.mem_singleton] at hj; rw [hj]; rfl,
    no_match_not_found _ [lowerCaseRecord] rfl
      (by intro j hj; rw [List.mem_singleton] at hj; rw [hj]; rfl)⟩

lemma httpErrorLine_ne_not_found (code : Nat) (reason : String) :
    httpErrorLine code reason ≠ "not found" := by
  intro h
  have hd := congrArg String.data h
  unfold httpErrorLine at hd
  rw [String.data_append, String.data_append, String.data_append] at hd
  have hh := congrArg List.head? hd
  rw [List.head?_append, List.head?_append] at hh
  simp [String.data] at hh

/-- C3: on a non-2xx HTTP status the program prints the status line — the
numeric code and the reason phrase — followed by the response body decoded
leniently (invalid bytes dropped, never failing), and returns without any
match attempt: the output is exactly these two lines, the first of which is
never the `not found` line. -/
theorem http_error_path (code : Nat) (reason : String) (bodyBytes : List Nat) :
    mainOutput (HttpResult.httpError code reason bodyBytes) =
      Except.ok [httpErrorLine code reason,
        String.mk (decodeUtf8Ignore bodyBytes)] ∧
    httpErrorLine code reason = "HTTP error " ++ toString code ++ " " ++ reason ∧
    httpErrorLine code reason ≠ "not found" ∧
    String.mk (decodeUtf8Ignore [0x41, 0xC2, 0x42]) = "AB" :=
  ⟨rfl, rfl, httpErrorLine_ne_not_found code reason, by decide⟩

/-! ## Missing-field lemmas (claim C7) -/

lemma strContains_empty_target : strContainsB "" TARGET = false := by decide

lemma unparsedOf_no_listing {fs : List (String × PyVal)}
    (hl : List.lookup "listing" fs = Option.none) :
    unparsedOf (PyVal.dict fs) = Except.ok (PyVal.str "") := by
  simp [unparsedOf, pyGet_dict, hl]

lemma unparsedOf_no_address {fs gs : List (String × PyVal)}
    (hl : List.lookup "listing" fs = some (PyVal.dict gs))
    (ha : List.lookup "address" gs = Option.none) :
    unparsedOf (PyVal.dict fs) = Except.ok (PyVal.str "") := by
  simp [unparsedOf, pyGet_dict, hl, ha]

lemma unparsedOf_no_unparsed {fs gs hs : List (String × PyVal)}
    (hl : List.lookup "listing" fs = some (PyVal.dict gs))
    (ha : List.lookup "address" gs = some (PyVal.dict hs))
    (hu : List.lookup "unparsedAddress" hs = Option.none) :
    unparsedOf (PyVal.dict fs) = Except.ok (PyVal.str "") := by
  simp [unparsedOf, pyGet_dict, hl, ha, hu]

lemma scanItem_no_listing {fs : List (String × PyVal)}
    (hl : List.lookup "listing" fs = Option.none) :
    scanItem (PyVal.dict fs) = Except.ok Option.none := by
  simp [scanItem, pyGet_dict, hl, pyInStr, strContains_empty_target]

lemma scanItem_no_address {fs gs : List (String × PyVal)}
    (hl : List.lookup "listing" fs = some (PyVal.dict gs))
    (ha : List.lookup "address" gs = Option.none) :
    scanItem (PyVal.dict fs) = Except.ok Option.none := by
  simp [scanItem, pyGet_dict, hl, ha, pyInStr, strContains_empty_target]

lemma scanItem_no_unparsed {fs gs hs : List (String × PyVal)}
    (hl : List.lookup "listing" fs = some (PyVal.dict gs))
    (ha : List.lookup "address" gs = some (PyVal.dict hs))
    (hu : List.lookup "unparsedAddress" hs = Option.none) :
    scanItem (PyVal.dict fs) = Except.ok Option.none := by
  simp [scanItem, pyGet_dict, hl, ha, hu, pyInStr, strContains_empty_target]

lemma scanItem_str_nomatch {fs gs hs : List (String × PyVal)} {s : String}
    (hl : List.lookup "listing" fs = some (PyVal.dict gs))
    (ha : List.lookup "address" gs = some (PyVal.dict hs))
    (hu : List.lookup "unparsedAddress" hs = some (PyVal.str s))
    (hm : strContainsB s TARGET = false) :
    scanItem (PyVal.dict fs) = Except.ok Option.none := by
  simp [scanItem, pyGet_dict, hl, ha, hu, pyInStr, hm]

lemma scanItem_str_match {fs gs hs : List (String × PyVal)} {s : String}
    {prop : PyVal}
    (hl : List.lookup "listing" fs = some (PyVal.dict gs))
    (ha : List.lookup "address" gs = some (PyVal.dict hs))
    (hu : List.lookup "unparsedAddress" hs = some (PyVal.str s))
    (hm : strContainsB s TARGET = true)
    (hp : (List.lookup "property" gs).getD (PyVal.dict []) = prop)
    {ps : List (String × PyVal)} (hps : prop = PyVal.dict ps) :
    scanItem (PyVal.dict fs) = Except.ok (some
      [ "listingId " ++ pyStr ((List.lookup "listingId" fs).getD PyVal.none)
      , "price " ++ pyStr ((List.lookup "listPriceLow" gs).getD PyVal.none)
      , "beds " ++ pyStr ((List.lookup "bedroomsTotal" ps).getD PyVal.none)
      , "baths " ++ pyStr ((List.lookup "bathroomsTotal" ps).getD PyVal.none)
      , "sqft " ++ pyStr ((List.lookup "livingArea" ps).getD PyVal.none)
      , "fullAddress " ++
          pyStr ((List.lookup "unparsedAddress" hs).getD PyVal.none) ]) := by
  subst hps
  simp [scanItem, pyGet_dict, hl, ha, hu, pyInStr, hm, hp]

lemma scanItem_ok_of_wellShaped (item : PyVal)
    (h : wellShapedItem item = true) :
    exceptIsOk (scanItem item) = true := by
  cases item with
  | dict fs =>
    simp only [wellShapedItem] at h
    cases hl : List.lookup "listing" fs with
    | none => rw [scanItem_no_listing hl]; rfl
    | some v =>
      simp only [hl] at h
      cases v with
      | dict gs =>
        simp only [Bool.and_eq_true] at h
        obtain ⟨ha0, hp0⟩ := h
        cases ha : List.lookup "address" gs with
        | none => rw [scanItem_no_address hl ha]; rfl
        | some va =>
          simp only [ha] at ha0
          cases va with
          | dict hs =>
            cases hu : List.lookup "unparsedAddress" hs with
            | none => rw [scanItem_no_unparsed hl ha hu]; rfl
            | some vu =>
              simp only [hu] at ha0
              cases vu with
              | str s =>
                cases hm : strContainsB s TARGET with
                | false => rw [scanItem_str_nomatch hl ha hu hm]; rfl
                | true =>
                  cases hp : List.lookup "property" gs with
                  | none =>
                    rw [scanItem_str_match hl ha hu hm (by rw [hp]; rfl) rfl]
                    rfl
                  | some vp =>
                    simp only [hp] at hp0
                    cases vp with
                    | dict ps =>
                      rw [scanItem_str_match hl ha hu hm
                            (by rw [hp]; rfl) rfl]
                      rfl
                    | none => simp at hp0
                    | bool b => simp at hp0
                    | int n => simp at hp0
                    | str t => simp at hp0
                    | list xs => simp at hp0
              | none => simp at ha0
              | bool b => simp at ha0
              | int n => simp at ha0
              | list xs => simp at ha0
              | dict ds => simp at ha0
          | none => simp at ha0
          | bool b => simp at ha0
          | int n => simp at ha0
          | str t => simp at ha0
          | list xs => simp at ha0
      | none => simp at h
      | bool b => simp at h
      | int n => simp at h
      | str t => simp at h
      | list xs => simp at h
  | none => simp [wellShapedItem] at h
  | bool b => simp [wellShapedItem] at h
  | int n => simp [wellShapedItem] at h
  | str s => simp [wellShapedItem] at h
  | list xs => simp [wellShapedItem] at h

lemma scanItem_of_addressAbsent (item : PyVal)
    (h : addressAbsent item = true) :
    unparsedOf item = Except.ok (PyVal.str "") ∧
    scanItem item = Except.ok Option.none := by
  cases item with
  | dict fs =>
    simp only [addressAbsent] at h
    cases hl : List.lookup "listing" fs with
    | none => exact ⟨unparsedOf_no_listing hl, scanItem_no_listing hl⟩
    | some v =>
      simp only [hl] at h
      cases v with
      | dict gs =>
        cases ha : List.lookup "address" gs with
        | none =>
          exact ⟨unparsedOf_no_address hl ha, scanItem_no_address hl ha⟩
        | some va =>
          simp only [ha] at h
          cases va with
          | dict hs =>
            simp only [Option.isNone_iff_eq_none] at h
            exact ⟨unparsedOf_no_unparsed hl ha h,
                   scanItem_no_unparsed hl ha h⟩
          | none => simp at h
          | bool b => simp at h
          | int n => simp at h
          | str t => simp at h
          | list xs => simp at h
      | none => simp at h
      | bool b => simp at h
      | int n => simp at h
      | str t => simp at h
      | list xs => simp at h
  | none => simp [addressAbsent] at h
  | bool b => simp [addressAbsent] at h
  | int n => simp [addressAbsent] at h
  | str s => simp [addressAbsent] at h
  | list xs => simp [addressAbsent] at h

/-- C7: for every well-shaped record, absence of nested fields never raises:
the scan of the record succeeds; when any level of the
`listing.address.unparsedAddress` chain is absent the scanned address is the
empty string and the record is a non-match; and a matched record with
`bedroomsTotal` absent prints `beds None`. -/
theorem missing_fields_safe (item : PyVal)
    (h : wellShapedItem item = true) :
    exceptIsOk (scanItem item) = true ∧
    (addressAbsent item = true →
      unparsedOf item = Except.ok (PyVal.str "") ∧
      scanItem item = Except.ok Option.none) ∧
    (∀ fs gs hs ps s, item = PyVal.dict fs →
      List.lookup "listing" fs = some (PyVal.dict gs) →
      List.lookup "address" gs = some (PyVal.dict hs) →
      List.lookup "unparsedAddress" hs = some (PyVal.str s) →
      List.lookup "property" gs = some (PyVal.dict ps) →
      strContainsB s TARGET = true →
      List.lookup "bedroomsTotal" ps = Option.none →
      ∃ lines, scanItem item = Except.ok (some lines) ∧
        lines.get? 2 = some "beds None") := by
  refine ⟨scanItem_ok_of_wellShaped item h,
          scanItem_of_addressAbsent item, ?_⟩
  intro fs gs hs ps s hitem hl ha hu hp hm hb
  subst hitem
  refine ⟨_, scanItem_str_match hl ha hu hm (by rw [hp]; rfl) rfl, ?_⟩
  rw [hb]
  rfl

/-- Witness for C7: the matched record with an empty `property` dict is
well-shaped, is scanned without error, and prints `beds None`. -/
theorem missing_fields_safe_witness :
    wellShapedItem noNumericsRecord = true ∧
    (exceptIsOk (scanItem noNumericsRecord) = true ∧
     (addressAbsent noNumericsRecord = true →
       unparsedOf noNumericsRecord = Except.ok (PyVal.str "") ∧
       scanItem noNumericsRecord = Except.ok Option.none) ∧
     (∀ fs gs hs ps s, noNumericsRecord = PyVal.dict fs →
       List.lookup "listing" fs = some (PyVal.dict gs) →
       List.lookup "address" gs = some (PyVal.dict hs) →
       List.lookup "unparsedAddress" hs = some (PyVal.str s) →
       List.lookup "property" gs = some (PyVal.dict ps) →
       strContainsB s TARGET = true →
       List.lookup "bedroomsTotal" ps = Option.none →
       ∃ lines, scanItem noNumericsRecord = Except.ok (some lines) ∧
         lines.get? 2 = some "beds None")) :=
  ⟨by decide, missing_fields_safe noNumericsRecord (by decide)⟩

end QueryMLS
